import Mathlib

/-!
Verification of the Location Record-Linkage & Enrichment Engine
(`src/Logics/create_locations_input.py`) against its natural-language
specification.

The Python source is shallowly embedded: pandas cells are `Option String`
(`none` models a NaN cell), pandas boolean-mask filters become `List.filter`,
Python `for`-loops that append into an accumulator become `List.foldl` with
`acc ++ [x]`, and `re.sub(r'\.0$', '', s)` becomes `stripDotZero`.
Thresholds are rationals (the source compares a `difflib` ratio, a dyadic
rational, against literals such as 0.7).
-/

namespace LocationsInput

/-- Python `str.strip()` on a char list: drop leading and trailing
whitespace.  (Implemented over `List Char` so the kernel can evaluate it.) -/
def trimChars (l : List Char) : List Char :=
  ((l.dropWhile Char.isWhitespace).reverse.dropWhile Char.isWhitespace).reverse

/-- Python `str.strip()`. -/
def pyStrip (s : String) : String :=
  String.mk (trimChars s.data)

/-- Python `s.split()`: maximal non-whitespace runs; `cur` is the (reversed)
word in progress. -/
def wordsAux : List Char → List Char → List String
  | cur, [] => if cur = [] then [] else [String.mk cur.reverse]
  | cur, c :: cs =>
    if c.isWhitespace then
      if cur = [] then wordsAux [] cs
      else String.mk cur.reverse :: wordsAux [] cs
    else wordsAux (c :: cur) cs

/-- Python `s.split()` on a string. -/
def pyWords (s : String) : List String :=
  wordsAux [] s.data

/-- `' '.join(ws)`. -/
def joinSpace : List String → String
  | [] => ""
  | [w] => w
  | w :: ws => w ++ " " ++ joinSpace ws

/-- Python `' '.join(s.split())`: collapse internal whitespace runs. -/
def collapseSpaces (s : String) : String :=
  joinSpace (pyWords s)

/-- Embeds `normalize_string` (line 1290): empty/NaN to `""`, else
`' '.join(str(s).strip().lower().split())`.  NaN inputs are handled by the
callers passing `Option String` through `normOpt` below. -/
def normalize_string (s : String) : String :=
  if s = "" then ""
  else collapseSpaces (String.mk ((trimChars s.data).map Char.toLower))

/-- Applies `normalize_string` to a pandas cell (the `pd.isna` branch). -/
def normOpt : Option String → String
  | none => ""
  | some s => normalize_string s

/-- Maximal digit runs of a char list; `cur` is the (reversed) run in
progress.  Embeds `re.findall(r'\d+', s)`. -/
def digitRunsAux : List Char → List Char → List String
  | cur, [] => if cur = [] then [] else [String.mk cur.reverse]
  | cur, c :: cs =>
    if c.isDigit then digitRunsAux (c :: cur) cs
    else if cur = [] then digitRunsAux [] cs
    else String.mk cur.reverse :: digitRunsAux [] cs

/-- Embeds `extract_numbers` (line 1302): all digit runs, in order of appearance. -/
def extract_numbers (s : String) : List String :=
  digitRunsAux [] s.data

/-- Embeds `re.sub(r'\d+', '', s)`: drop every digit character. -/
def removeDigits (s : String) : String :=
  String.mk (s.data.filter (fun c => ¬ c.isDigit))

/-- Embeds `re.sub(r'\.0$', '', s)`: strip one trailing `.0`. -/
def stripDotZero (s : String) : String :=
  match s.data.reverse with
  | '0' :: '.' :: rest => String.mk rest.reverse
  | _ => s

/-- Applies the `str(x).strip()` then `re.sub(r'\.0$','',·)` cleanup used for
ids throughout the source. -/
def cleanupId (s : String) : String :=
  stripDotZero (pyStrip s)

/-- Length of the common prefix of two char lists (used by the
`difflib.SequenceMatcher` embedding). -/
def commonRun : List Char → List Char → Nat
  | a :: as, b :: bs => if a = b then commonRun as bs + 1 else 0
  | _, _ => 0

/-- Embeds `SequenceMatcher.find_longest_match` over whole strings: the longest
common contiguous block `(i, j, k)`, ties broken by earliest `i` then
earliest `j` (no junk; `autojunk` only affects strings of 200+ chars and is
not modelled). -/
def findLongestMatch (a b : List Char) : Nat × Nat × Nat :=
  (List.range a.length).foldl
    (fun best i =>
      (List.range b.length).foldl
        (fun best j =>
          let k := commonRun (a.drop i) (b.drop j)
          if best.2.2 < k then (i, j, k) else best)
        best)
    (0, 0, 0)

/-- Computes the total size of the matching blocks of `SequenceMatcher.get_matching_blocks`
(the recursion splits around the longest match).  The recursion is driven by
fuel; `a.length + b.length + 1` always suffices since each recursive call
strictly shrinks the combined span. -/
def totalMatched : Nat → List Char → List Char → Nat
  | 0, _, _ => 0
  | fuel + 1, a, b =>
    let m := findLongestMatch a b
    if m.2.2 = 0 then 0
    else
      totalMatched fuel (a.take m.1) (b.take m.2.1) + m.2.2 +
        totalMatched fuel (a.drop (m.1 + m.2.2)) (b.drop (m.2.1 + m.2.2))

/-- Embeds `SequenceMatcher(None, a, b).ratio()`: `2*M / (len a + len b)`, and `1`
when both strings are empty. -/
def similarity (a b : String) : ℚ :=
  if a.length + b.length = 0 then 1
  else (2 * totalMatched (a.length + b.length + 1) a.data b.data : ℚ) /
    (a.length + b.length)

/-- Embeds `fuzzy_match_score` (line 1314), the spec's `isSimilar(a, b, threshold)`. -/
def fuzzy_match_score (str1 str2 : String) (threshold : ℚ) : Bool :=
  let str1_norm := normalize_string str1
  let str2_norm := normalize_string str2
  if str1_norm = "" ∨ str2_norm = "" then false
  else
    let numbers1 := extract_numbers str1
    let numbers2 := extract_numbers str2
    if numbers1 ≠ [] ∧ numbers2 ≠ [] ∧ numbers1 ≠ numbers2 then false
    else
      let str1_nn := collapseSpaces (pyStrip (removeDigits str1_norm))
      let str2_nn := collapseSpaces (pyStrip (removeDigits str2_norm))
      if str1_nn = "" ∨ str2_nn = "" then str1_norm = str2_norm
      else if str1_nn = str2_nn then true
      else decide (threshold ≤ similarity str1_nn str2_nn)

/-- Appends the value of a successful lookup to an accumulator list (the
translation of a Python loop whose body appends conditionally on a match). -/
def appendOpt {b : Type} (acc : List b) : Option b → List b
  | some y => acc ++ [y]
  | none => acc

/-- Applies Python `str(x)` to a pandas cell: a NaN cell prints as `"nan"`.
Used where the source goes through `.astype(str)` or f-string formatting. -/
def astypeStr : Option String → String
  | none => "nan"
  | some s => s

/-- One row of the `Locations` sheet of `Practice_Locations.xlsx` (the
catalog fetched from the system of record).  Cells are `Option String`,
`none` modelling a NaN cell. -/
structure ApiLocation where
  address_1 : Option String
  address_2 : Option String
  city : Option String
  state : Option String
  zip : Option String
  monolith_location_id : Option String
  location_id : Option String
  locationType : Option String
  practiceMonolithId : Option String
  practiceCloudId : Option String
deriving DecidableEq

/-- Address fields of one row of `Locations_input.xlsx` as read by
`match_location_by_address` (`row.get('Address Line 1', '')` and friends). -/
structure InputRow where
  addressLine1 : Option String
  addressLine2 : Option String
  city : Option String
  state : Option String
  zip : Option String
deriving DecidableEq

/-- One element of the result list of `match_location_by_address` (line 1722):
`(monolith_location_id, location_id, location_type, practice_monolith_id,
practice_cloud_id)`. -/
structure MatchTuple where
  monolithLocationId : String
  externalLocationId : String
  locationType : String
  practiceMonolithId : String
  practiceCloudId : String
deriving DecidableEq

/-- Practice Monolith ID comparison key (line 1552):
`astype(str).str.strip().str.replace(r'\.0$', '', regex=True)`. -/
def practiceMonolithKey (r : ApiLocation) : String :=
  stripDotZero (pyStrip (astypeStr r.practiceMonolithId))

/-- Practice Cloud ID comparison key (line 1553): `astype(str).str.strip()`. -/
def practiceCloudKey (r : ApiLocation) : String :=
  pyStrip (astypeStr r.practiceCloudId)

/-- Normalization of a provided practice id argument (lines 1531-1545):
strip, drop a trailing `.0`, and treat the empty result as not provided. -/
def cleanProvidedId : Option String → Option String
  | none => none
  | some p =>
    let s := cleanupId p
    if s = "" then none else some s

/-- Practice scoping filter of `match_location_by_address` (lines 1547-1567):
match either id when both are given, one when one is given, everything when
none is given.  The arguments are already cleaned by `cleanProvidedId`. -/
def practiceFilter (api : List ApiLocation) :
    Option String → Option String → List ApiLocation
  | some p, some c =>
    api.filter (fun r => practiceMonolithKey r = p ∨ practiceCloudKey r = c)
  | some p, none => api.filter (fun r => practiceMonolithKey r = p)
  | none, some c => api.filter (fun r => practiceCloudKey r = c)
  | none, none => api

/-- One part of the Case-4 concatenation (lines 1607-1617).  The source tests
Python truthiness of the raw cell first, so a NaN cell is truthy and
contributes the literal text `nan` via `str(...)`; an empty or
whitespace-only string contributes nothing. -/
def concatPart : Option String → Option String
  | none => some "nan"
  | some s =>
    if s = "" then none
    else if pyStrip s = "" then none
    else some (pyStrip s)

/-- Case-4 synthetic candidate address (line 1620): the non-empty address
parts joined with single spaces. -/
def combinedAddress (r : ApiLocation) : String :=
  joinSpace
    (([r.address_1, r.address_2, r.city, r.state, r.zip]).filterMap concatPart)

/-- Case-4 candidate loop (lines 1597-1627): keep the candidates whose
normalized concatenated address is non-empty and fuzzy-matches the full
Address Line 1 at threshold 0.7. -/
def case4Stage (addr1norm : String) (cands : List ApiLocation) :
    List ApiLocation :=
  cands.foldl
    (fun acc r =>
      let combNorm := normalize_string (combinedAddress r)
      if combNorm = "" then acc
      else if fuzzy_match_score addr1norm combNorm (7/10) then acc ++ [r]
      else acc)
    []

/-- Step 2 of the multi-field matcher, the Address Line 1 loop
(lines 1633-1639). -/
def line1Stage (addr1norm : String) (cands : List ApiLocation) :
    List ApiLocation :=
  cands.foldl
    (fun acc r =>
      if fuzzy_match_score addr1norm (normOpt r.address_1) (7/10) then
        acc ++ [r]
      else acc)
    []

/-- Step 3 of the multi-field matcher, the Address Line 2 presence loop
(lines 1647-1666).  The `matches = filtered_matches` assignment sits inside
the loop body in the source, but the loop is always entered (the caller
returns early when the candidate list is empty), so the net effect is the
unconditional replacement embedded here. -/
def line2Stage (addr2norm : String) (ms : List ApiLocation) :
    List ApiLocation :=
  ms.foldl
    (fun acc r =>
      let api_addr2_norm := normOpt r.address_2
      if addr2norm = "" then
        if api_addr2_norm = "" then acc ++ [r] else acc
      else
        if api_addr2_norm ≠ "" then
          if fuzzy_match_score addr2norm api_addr2_norm (7/10) then acc ++ [r]
          else acc
        else acc)
    []

/-- Step 4 of the multi-field matcher, the City filter (lines 1668-1679):
only replace the candidate set when the filtered set is non-empty. -/
def cityStage (citynorm : String) (ms : List ApiLocation) :
    List ApiLocation :=
  if citynorm = "" then ms
  else
    let filtered :=
      ms.foldl
        (fun acc r =>
          if fuzzy_match_score citynorm (normOpt r.city) (8/10) then acc ++ [r]
          else acc)
        []
    if filtered = [] then ms else filtered

/-- Step 5 of the multi-field matcher, the State filter (lines 1681-1692),
with the same conditional-narrowing policy as the City filter. -/
def stateStage (statenorm : String) (ms : List ApiLocation) :
    List ApiLocation :=
  if statenorm = "" then ms
  else
    let filtered :=
      ms.foldl
        (fun acc r =>
          if fuzzy_match_score statenorm (normOpt r.state) (8/10) then
            acc ++ [r]
          else acc)
        []
    if filtered = [] then ms else filtered

/-- Step 6 of the multi-field matcher, the ZIP filter (lines 1694-1705),
with the same conditional-narrowing policy as the City filter. -/
def zipStage (zipnorm : String) (ms : List ApiLocation) :
    List ApiLocation :=
  if zipnorm = "" then ms
  else
    let filtered :=
      ms.foldl
        (fun acc r =>
          if fuzzy_match_score zipnorm (normOpt r.zip) (8/10) then acc ++ [r]
          else acc)
        []
    if filtered = [] then ms else filtered

/-- Surviving catalog candidates of `match_location_by_address`
(lines 1517-1705) before the result-tuple extraction. -/
def matchSurvivors (row : InputRow) (api : List ApiLocation)
    (pid pcid : Option String) : List ApiLocation :=
  let filtered := practiceFilter api (cleanProvidedId pid) (cleanProvidedId pcid)
  if filtered = [] then []
  else
    let addr1norm := normOpt row.addressLine1
    let addr2norm := normOpt row.addressLine2
    let citynorm := normOpt row.city
    let statenorm := normOpt row.state
    let zipnorm := normOpt row.zip
    if addr1norm = "" then []
    else if addr2norm = "" ∧ citynorm = "" ∧ statenorm = "" ∧ zipnorm = "" then
      case4Stage addr1norm filtered
    else
      let m1 := line1Stage addr1norm filtered
      if m1 = [] then []
      else zipStage zipnorm (stateStage statenorm (cityStage citynorm (line2Stage addr2norm m1)))

/-- Result-tuple extraction loop of `match_location_by_address`
(lines 1707-1724): a candidate contributes a tuple only when both its
monolith id and its cloud id are non-NaN; the cloud id is passed through
raw, the monolith id is cleaned. -/
def tupleOf (r : ApiLocation) : Option MatchTuple :=
  match r.monolith_location_id, r.location_id with
  | some m, some c =>
    some
      { monolithLocationId := cleanupId m
        externalLocationId := c
        locationType :=
          match r.locationType with
          | none => ""
          | some t => pyStrip t
        practiceMonolithId :=
          match r.practiceMonolithId with
          | none => ""
          | some t => if t = "" then "" else pyStrip t
        practiceCloudId :=
          match r.practiceCloudId with
          | none => ""
          | some t => if t = "" then "" else pyStrip t }
  | _, _ => none

/-- Loop translation of the result extraction (lines 1708-1723). -/
def extractStage (ms : List ApiLocation) : List MatchTuple :=
  ms.foldl (fun acc r => appendOpt acc (tupleOf r)) []

/-- Embeds `match_location_by_address` (line 1517). -/
def match_location_by_address (row : InputRow) (api : List ApiLocation)
    (pid pcid : Option String) : List MatchTuple :=
  extractStage (matchSurvivors row api pid pcid)

/-- State comparison key used by Case 2 (line 2104) and the Backfiller
(line 1800): `astype(str).str.strip()` then `normalize_string`.  After
`astype(str)` every cell is a non-NaN string, so the `pd.isna` guard of the
lambda never fires and a NaN cell contributes the key `nan`. -/
def stateKey (r : ApiLocation) : String :=
  normalize_string (pyStrip (astypeStr r.state))

/-- One match recorded by Case 2 for one state of the comma-separated list
(lines 2143-2149). -/
structure MatchInfo where
  location_id : String
  monolith_location_id : String
  location_type : String
  practice_monolith_id : String
  practice_cloud_id : String
deriving DecidableEq

/-- Python `s.split(',')`: split at every comma, keeping empty pieces. -/
def splitCommaAux : List Char → List Char → List String
  | cur, [] => [String.mk cur.reverse]
  | cur, c :: cs =>
    if c = ',' then String.mk cur.reverse :: splitCommaAux [] cs
    else splitCommaAux (c :: cur) cs

/-- The Case-2 state list (line 2087):
`[s.strip() for s in state_value_str.split(',') if s.strip()]`. -/
def stateList (s : String) : List String :=
  ((splitCommaAux [] s.data).map pyStrip).filter (fun w => w ≠ "")

/-- Case-2 handling of one state item (lines 2096-2149): normalize, look up
the first catalog record with that state key, and record its ids when its
`location_id` is non-NaN. -/
def firstStateMatch (api : List ApiLocation) (stateItem : String) :
    Option MatchInfo :=
  let norm := normalize_string stateItem
  if norm = "" then none
  else
    match (api.filter (fun r => stateKey r = norm)).head? with
    | none => none
    | some fm =>
      match fm.location_id with
      | none => none
      | some lid =>
        some
          { location_id := cleanupId lid
            monolith_location_id :=
              match fm.monolith_location_id with
              | none => ""
              | some m => cleanupId m
            location_type :=
              match fm.locationType with
              | none => ""
              | some t => pyStrip t
            practice_monolith_id :=
              match fm.practiceMonolithId with
              | none => ""
              | some p => if p = "" then "" else cleanupId p
            practice_cloud_id :=
              match fm.practiceCloudId with
              | none => ""
              | some p => if p = "" then "" else pyStrip p }

/-- The Case-2 per-row match list `matches_for_row` (lines 2077-2149): one
entry per state of the comma-separated list that finds a catalog record,
in list order. -/
def case2MatchesForRow (stateValue : Option String)
    (api : List ApiLocation) : List MatchInfo :=
  match stateValue with
  | none => []
  | some sv =>
    if pyStrip sv = "" then []
    else
      (stateList (pyStrip sv)).foldl
        (fun acc st => appendOpt acc (firstStateMatch api st)) []

/-- Numbered output cells written by Case 2 for one matched row
(lines 2153-2226), along with the value left in the main Location Type
column. -/
structure Case2RowResult where
  monolithSlots : List (Nat × String)
  cloudSlots : List (Nat × String)
  typeSlots : List (Nat × String)
  practiceMonolithSlots : List (Nat × String)
  practiceCloudSlots : List (Nat × String)
  mainLocationType : String
deriving DecidableEq

/-- Case-2 population of one row (lines 2153-2226): `none` when the row has
no match (the row is left untouched); otherwise slot `i` of each numbered
column group receives the values of match `i`, except that every
`Location Type i` cell is written as the empty string (line 2219) and the
main Location Type cell is cleared (line 2226). -/
def case2ProcessRow (stateValue : Option String) (api : List ApiLocation) :
    Option Case2RowResult :=
  let ms := case2MatchesForRow stateValue api
  if ms = [] then none
  else
    some
      { monolithSlots :=
          (List.enumFrom 1 ms).map (fun p => (p.1, p.2.monolith_location_id))
        cloudSlots :=
          (List.enumFrom 1 ms).map (fun p => (p.1, p.2.location_id))
        typeSlots := (List.enumFrom 1 ms).map (fun p => (p.1, ""))
        practiceMonolithSlots :=
          (List.enumFrom 1 ms).map (fun p => (p.1, p.2.practice_monolith_id))
        practiceCloudSlots :=
          (List.enumFrom 1 ms).map (fun p => (p.1, p.2.practice_cloud_id))
        mainLocationType := "" }

/-- Non-emptiness test for one pandas cell, as the selector and the
Backfiller use it: `notna()` and `astype(str).str.strip() != ''`
(a non-NaN string cell is printed verbatim by `str`). -/
def cellNonEmpty : Option String → Bool
  | none => false
  | some s => pyStrip s ≠ ""

/-- Count of non-empty cells of one column (line 2009). -/
def nonEmptyCount (col : List (Option String)) : Nat :=
  (col.filter cellNonEmpty).length

/-- Column test `not col.isna().all() and not
(col.astype(str).str.strip() == '').all()` (lines 2032, 2045-2051).  Note
that a NaN cell satisfies the second conjunct because `astype(str)` prints
it as the non-empty text `nan`. -/
def colHasValues (col : List (Option String)) : Bool :=
  col.any (fun c => c.isSome) && col.any (fun c => pyStrip (astypeStr c) ≠ "")

/-- Column test `col.isna().all() or (col.astype(str).str.strip() == '').all()`
(lines 2298-2304). -/
def colAllEmpty (col : List (Option String)) : Bool :=
  col.all (fun c => c.isNone) || col.all (fun c => pyStrip (astypeStr c) = "")

/-- Variant of `colHasValues` for a column that may be absent from the
sheet: the `X_has_values` flags default to `False` (lines 2039-2051). -/
def optColHasValues : Option (List (Option String)) → Bool
  | none => false
  | some col => colHasValues col

/-- Variant of `colAllEmpty` for a column that may be absent from the sheet:
the `X_empty` flags default to `True` (lines 2290-2304). -/
def optColAllEmpty : Option (List (Option String)) → Bool
  | none => true
  | some col => colAllEmpty col

/-- Column population of one uploaded dataset, the input of the strategy
selection in `add_location_cloud_ids_to_locations_input`.  `nRows` is
`len(locations_df)`; a `none` column is absent from the sheet; `locIdCols`
lists the cells of each `Location ID*` column. -/
structure SelectorInput where
  nRows : Nat
  locIdCols : List (List (Option String))
  addr1Col : Option (List (Option String))
  addr2Col : Option (List (Option String))
  cityCol : Option (List (Option String))
  stateCol : Option (List (Option String))
  zipCol : Option (List (Option String))

/-- The four matching strategies of
`add_location_cloud_ids_to_locations_input`. -/
inductive MatchCase
  | case1
  | case2
  | case3
  | case4
deriving DecidableEq

/-- The `needs_fuzzy_matching` flag (lines 2004-2016): false as soon as some
`Location ID` column has more than 20 percent non-empty cells.  The float
test `non_empty_count / total_count > 0.2` is embedded exactly as
`5 * count > total` (the guard `total_count > 0` is kept). -/
def needsFuzzyMatching (d : SelectorInput) : Bool :=
  !(d.locIdCols.any (fun col =>
    decide (0 < d.nRows) && decide (d.nRows < 5 * nonEmptyCount col)))

/-- Strategy selection of `add_location_cloud_ids_to_locations_input`
(lines 1982-2416): `none` models the early return when the sheet has no
`Location ID` columns (line 1983); otherwise the branch that runs.  (The
Case-3/4 branch may still abort later when `Address Line 1` is absent; that
abort never reaches Case 1.) -/
def selectCase (d : SelectorInput) : Option MatchCase :=
  if d.locIdCols = [] then none
  else
    let needsFuzzy := needsFuzzyMatching d
    let onlyStateMapped :=
      d.stateCol.isSome && needsFuzzy && optColHasValues d.stateCol &&
        !optColHasValues d.addr1Col && !optColHasValues d.addr2Col &&
        !optColHasValues d.cityCol && !optColHasValues d.zipCol
    if onlyStateMapped then some MatchCase.case2
    else if needsFuzzy then
      let onlyAddressLine1Mapped :=
        optColHasValues d.addr1Col && optColAllEmpty d.addr2Col &&
          optColAllEmpty d.cityCol && optColAllEmpty d.stateCol &&
          optColAllEmpty d.zipCol
      if onlyAddressLine1Mapped then some MatchCase.case4
      else some MatchCase.case3
    else some MatchCase.case1

/-- Case-1 map build `location_id_map` (lines 2429-2449): monolith key to
cloud id, first occurrence kept; rows with a falsy (NaN or empty) monolith
or cloud id are skipped. -/
def buildLocationIdMap (api : List ApiLocation) : List (String × String) :=
  api.foldl
    (fun acc r =>
      match r.monolith_location_id, r.location_id with
      | some m, some c =>
        let ms := pyStrip m
        if ms = "" then acc
        else if c = "" then acc
        else
          let key := stripDotZero ms
          if acc.any (fun p => p.1 = key) then acc else acc ++ [(key, c)]
      | _, _ => acc)
    []

/-- Case-1 value written into one `Location Cloud ID n` cell
(lines 2517-2526): the columns are created filled with the empty string, and
a row cell is overwritten with `location_id_map.get(key, '')` only when the
`Location ID n` cell is non-empty. -/
def case1CloudValue (locMap : List (String × String))
    (cell : Option String) : String :=
  match cell with
  | none => ""
  | some s =>
    if pyStrip s = "" then ""
    else ((locMap.lookup (cleanupId s)).getD "")

/-- Case-1 `Location Cloud ID` cells of one row, one per `Location ID n`
input column, keyed by the slot number `n`. -/
def case1CloudSlots (locMap : List (String × String))
    (locCells : List (Nat × Option String)) : List (Nat × String) :=
  locCells.map (fun p => (p.1, case1CloudValue locMap p.2))

/-- Slot numbers of one row that hold a non-empty value. -/
def populatedSlotNums (slots : List (Nat × String)) : List Nat :=
  (slots.filter (fun p => p.2 ≠ "")).map Prod.fst

/-- Slot numbers assigned by the Case-3/4 fill loop (lines 2388-2404):
`for match_idx in range(len(matches)): col_num = match_idx + 1`. -/
def case3AssignedSlots (numMatches : Nat) : List Nat :=
  (List.range numMatches).foldl (fun acc i => acc ++ [i + 1]) []

/-- Contiguity of a slot-number list: it is exactly `1, 2, ..., k`. -/
def contiguousFrom1 (ns : List Nat) : Prop :=
  ns = List.range' 1 ns.length

instance (ns : List Nat) : Decidable (contiguousFrom1 ns) := by
  unfold contiguousFrom1
  infer_instance

/-- One row of the committed sheet as the Virtual-Location Backfiller sees
it: the main Location Type and State cells plus the cells of the numbered
`Location ID n` / `Location Cloud ID n` / `Location Type n` /
`Practice Cloud ID n` columns, keyed by `n`.  A key that is absent models a
column the sheet does not have; `(n, none)` models a NaN cell of an
existing column. -/
structure VRow where
  locationType : Option String
  state : Option String
  locCells : List (Nat × Option String)
  cloudCells : List (Nat × Option String)
  typeCells : List (Nat × Option String)
  pracCells : List (Nat × Option String)
deriving DecidableEq

/-- Key membership of a cell list. -/
def hasKey (cells : List (Nat × Option String)) (n : Nat) : Bool :=
  cells.any (fun p => p.1 = n)

/-- Writes value `v` into the cell of column `n`, creating the column when
absent (pandas `insert` plus `.at` assignment). -/
def setCell (cells : List (Nat × Option String)) (n : Nat) (v : String) :
    List (Nat × Option String) :=
  if hasKey cells n then
    cells.map (fun p => if p.1 = n then (n, some v) else p)
  else cells ++ [(n, some v)]

/-- Creates column `n` when absent, with the empty-string cell the pandas
`insert` writes into every other row (lines 1899-1919). -/
def ensureKey (cells : List (Nat × Option String)) (n : Nat) :
    List (Nat × Option String) :=
  if hasKey cells n then cells else cells ++ [(n, some "")]

/-- The `max_number_for_row` computation (lines 1859-1871): largest column
number whose cell is non-empty, 0 when none is.  (The column-name parsing
of the source is abstracted by the numeric keys.) -/
def maxPopulated (cells : List (Nat × Option String)) : Nat :=
  cells.foldl (fun m p => if cellNonEmpty p.2 then max m p.1 else m) 0

/-- The sentinel lookup of the Backfiller (lines 1799-1815): among catalog
records whose state key matches, the first one whose stripped `address_1`
is the literal `--`. -/
def findVirtualLocation (api : List ApiLocation) (stateNorm : String) :
    Option ApiLocation :=
  ((api.filter (fun r => stateKey r = stateNorm)).filter
    (fun r => pyStrip (astypeStr r.address_1) = "--")).head?

/-- Guard cascade of the Backfiller row loop up to the sentinel lookup
(lines 1774-1815): Location Type must be a non-NaN `Both` or `Virtual`,
State must normalize to something non-empty, and a sentinel record must
exist for the state. -/
def stepSentinel (api : List ApiLocation) (ltc stc : Option String) :
    Option ApiLocation :=
  match ltc with
  | none => none
  | some lt =>
    if pyStrip lt = "Both" ∨ pyStrip lt = "Virtual" then
      match stc with
      | none => none
      | some st =>
        if pyStrip st = "" then none
        else if normalize_string (pyStrip st) = "" then none
        else findVirtualLocation api (normalize_string (pyStrip st))
    else none

/-- One iteration of the Backfiller row loop (lines 1773-1928) on one row:
`none` when the row is skipped (a `continue` of the source), otherwise the
updated row together with the new slot number `max + 1`.  A sentinel whose
cleaned id already appears among the cloud cells of the row is skipped
(lines 1843-1857). -/
def backfillStep (api : List ApiLocation) (r : VRow) :
    Option (VRow × Nat) :=
  match stepSentinel api r.locationType r.state with
  | none => none
  | some v =>
    match v.location_id with
    | none => none
    | some vid =>
      let vidStr := cleanupId vid
      let monolithStr :=
        match v.monolith_location_id with
        | none => ""
        | some m => cleanupId m
      let typeStr :=
        match v.locationType with
        | none => ""
        | some t => pyStrip t
      let pracStr :=
        match v.practiceCloudId with
        | none => ""
        | some p => if p = "" then "" else pyStrip p
      let alreadyExists :=
        r.cloudCells.any (fun p =>
          match p.2 with
          | none => false
          | some s => cleanupId s = vidStr)
      if alreadyExists then none
      else
        let n := maxPopulated r.cloudCells + 1
        some
          ({ r with
              locCells := setCell r.locCells n monolithStr
              cloudCells := setCell r.cloudCells n vidStr
              typeCells := setCell r.typeCells n typeStr
              pracCells := setCell r.pracCells n pracStr }, n)

/-- Column creation as seen by one other row: the four freshly created
numbered columns gain an empty-string cell in every other row. -/
def ensureRow (n : Nat) (r : VRow) : VRow :=
  { r with
      locCells := ensureKey r.locCells n
      cloudCells := ensureKey r.cloudCells n
      typeCells := ensureKey r.typeCells n
      pracCells := ensureKey r.pracCells n }

/-- The Backfiller row loop over the sheet, fuel-driven so that the kernel
can evaluate it (`rows.length` fuel is always exact because `ensureRow`
preserves list length).  `done` accumulates processed rows; an append by
one row creates columns across the whole sheet. -/
def backfillRowsFuel (api : List ApiLocation) :
    Nat → List VRow → List VRow → List VRow
  | 0, done, _ => done
  | _ + 1, done, [] => done
  | fuel + 1, done, r :: rest =>
    match backfillStep api r with
    | none => backfillRowsFuel api fuel (done ++ [r]) rest
    | some (r', n) =>
      backfillRowsFuel api fuel (done.map (ensureRow n) ++ [r'])
        (rest.map (ensureRow n))

/-- Embeds `add_virtual_locations_after_matching` (line 1727) on the
committed sheet.  The early returns for missing sheet columns other than
the `Location Cloud ID*` group are not modelled (the claims quantify over
sheets that have the required columns); the guard kept here is the
`Location Cloud ID` column check of lines 1758-1769. -/
def add_virtual_locations_after_matching (api : List ApiLocation)
    (rows : List VRow) : List VRow :=
  if rows.any (fun r => !r.cloudCells.isEmpty) then
    backfillRowsFuel api rows.length [] rows
  else rows

/-- Modelled from the spec, for comparison with the translated loop: keep a
candidate exactly when it agrees with the row on Address Line 2 presence —
an empty row line2 keeps only candidates with empty line2, a non-empty row
line2 keeps only candidates with non-empty and 0.7-similar line2. -/
def line2KeepSpec (addr2norm : String) (r : ApiLocation) : Bool :=
  if addr2norm = "" then decide (normOpt r.address_2 = "")
  else
    decide (normOpt r.address_2 ≠ "") &&
      fuzzy_match_score addr2norm (normOpt r.address_2) (7/10)

/-- Modelled from the spec, for comparison with the translated loops: a
conditional narrowing stage replaces the candidate set by the filtered set
only when the filtered set is non-empty. -/
def condNarrowSpec (p : ApiLocation → Bool) (ms : List ApiLocation) :
    List ApiLocation :=
  if ms.filter p = [] then ms else ms.filter p

/-- Cleanup stability of the external id of one catalog record: cleaning
the already-cleaned id changes nothing (fails for ids such as `v.0.0`,
whose cleaned form `v.0` still ends in `.0`). -/
def idCleanupStable (r : ApiLocation) : Bool :=
  match r.location_id with
  | none => true
  | some v => cleanupId (cleanupId v) = cleanupId v

/-- Scenario-A input row: only Address Line 1 is populated. -/
def c1Row : InputRow :=
  { addressLine1 := some "165 Broadway, 23rd floor"
    addressLine2 := some ""
    city := some ""
    state := some ""
    zip := some "" }

/-- Scenario-A catalog record for practice 555. -/
def c1CatalogRecord : ApiLocation :=
  { address_1 := some "165 Broadway"
    address_2 := some "23rd Floor"
    city := some "New York"
    state := some "NY"
    zip := some "10006"
    monolith_location_id := some "900"
    location_id := some "loc_1"
    locationType := some "In Person"
    practiceMonolithId := some "555"
    practiceCloudId := none }

/-- Scenario-A catalog. -/
def c1Catalog : List ApiLocation := [c1CatalogRecord]

/-- Scenario-B input row: full address fields, empty Address Line 2. -/
def c3Row : InputRow :=
  { addressLine1 := some "4 Century Dr"
    addressLine2 := some ""
    city := some "Parsippany"
    state := some "NJ"
    zip := some "07054" }

/-- Scenario-B catalog: one candidate that matches on line1, city, state and
zip but carries Address Line 2 `Ste 100`. -/
def c3Catalog : List ApiLocation :=
  [{ address_1 := some "4 Century Dr"
     address_2 := some "Ste 100"
     city := some "Parsippany"
     state := some "NJ"
     zip := some "07054"
     monolith_location_id := some "77"
     location_id := some "locB"
     locationType := some "In Person"
     practiceMonolithId := none
     practiceCloudId := none }]

/-- Demo candidate set for the conditional-narrowing witness. -/
def c4DemoRows : List ApiLocation :=
  [{ address_1 := some "4 Century Dr"
     address_2 := some ""
     city := some "Parsippany"
     state := some "NJ"
     zip := some "07054"
     monolith_location_id := some "77"
     location_id := some "locC"
     locationType := some "In Person"
     practiceMonolithId := none
     practiceCloudId := none }]

/-- Catalog for the duplicate-state counterexample: one New-York record. -/
def c5Catalog : List ApiLocation :=
  [{ address_1 := some "1 Liberty St"
     address_2 := none
     city := some "New York"
     state := some "NY"
     zip := some "10005"
     monolith_location_id := some "m9"
     location_id := some "L9"
     locationType := some "In Person"
     practiceMonolithId := none
     practiceCloudId := none }]

/-- Zero-row dataset whose only columns are one `Location ID` column and an
(empty) `Address Line 1` column. -/
def c6ZeroRowData : SelectorInput :=
  { nRows := 0
    locIdCols := [[]]
    addr1Col := some []
    addr2Col := none
    cityCol := none
    stateCol := none
    zipCol := none }

/-- One-row dataset whose `Location ID` column is fully populated. -/
def c6WitnessData : SelectorInput :=
  { nRows := 1
    locIdCols := [[some "7"]]
    addr1Col := none
    addr2Col := none
    cityCol := none
    stateCol := none
    zipCol := none }

/-- Catalog for the Case-1 slot-gap counterexample: monolith ids 10 and 30. -/
def c7Catalog : List ApiLocation :=
  [{ address_1 := some "10 First St"
     address_2 := none
     city := some "Austin"
     state := some "TX"
     zip := some "78701"
     monolith_location_id := some "10"
     location_id := some "c10"
     locationType := some "In Person"
     practiceMonolithId := none
     practiceCloudId := none },
   { address_1 := some "30 Third St"
     address_2 := none
     city := some "Austin"
     state := some "TX"
     zip := some "78702"
     monolith_location_id := some "30"
     location_id := some "c30"
     locationType := some "In Person"
     practiceMonolithId := none
     practiceCloudId := none }]

/-- Case-1 input `Location ID n` cells of one row whose sub-columns are only
partially populated: slots 1 and 3 hold ids, slot 2 is empty. -/
def c7LocCells : List (Nat × Option String) :=
  [(1, some "10"), (2, some ""), (3, some "30")]

/-- Backfiller row for the C7 witness: classified Virtual, state TX, one
empty cloud column. -/
def c7WitnessRow : VRow :=
  { locationType := some "Virtual"
    state := some "TX"
    locCells := [(1, none)]
    cloudCells := [(1, some "keep")]
    typeCells := [(1, none)]
    pracCells := [(1, none)] }

/-- Catalog with a TX sentinel whose id survives cleanup unchanged. -/
def c7WitnessCatalog : List ApiLocation :=
  [{ address_1 := some "--"
     address_2 := none
     city := none
     state := some "TX"
     zip := none
     monolith_location_id := none
     location_id := some "virt_tx"
     locationType := some "Virtual"
     practiceMonolithId := none
     practiceCloudId := none }]

/-- Row expected from one Backfiller step on `c7WitnessRow`: the virtual
match lands in the fresh slot 2 and slot 1 is untouched. -/
def c7ExpectedRow : VRow :=
  { locationType := some "Virtual"
    state := some "TX"
    locCells := [(1, none), (2, some "")]
    cloudCells := [(1, some "keep"), (2, some "virt_tx")]
    typeCells := [(1, none), (2, some "Virtual")]
    pracCells := [(1, none), (2, some "")] }

/-- Catalog whose TX sentinel id `v.0.0` defeats the duplicate check: its
cleaned form `v.0` is cleaned again to `v` when re-read from the sheet. -/
def c8Catalog : List ApiLocation :=
  [{ address_1 := some "--"
     address_2 := none
     city := none
     state := some "TX"
     zip := none
     monolith_location_id := none
     location_id := some "v.0.0"
     locationType := some "Virtual"
     practiceMonolithId := none
     practiceCloudId := none }]

/-- Committed sheet with one Virtual TX row and one empty cloud column. -/
def c8Sheet : List VRow :=
  [{ locationType := some "Virtual"
     state := some "TX"
     locCells := [(1, none)]
     cloudCells := [(1, none)]
     typeCells := [(1, none)]
     pracCells := [(1, none)] }]

/-- Catalog for the C8 witness: a TX sentinel with a stable id. -/
def c8WitnessCatalog : List ApiLocation :=
  [{ address_1 := some "--"
     address_2 := none
     city := none
     state := some "TX"
     zip := none
     monolith_location_id := some "88"
     location_id := some "virt_tx"
     locationType := some "Virtual"
     practiceMonolithId := none
     practiceCloudId := none }]

/-- Catalog for the Case-2 blank-locationType witness: one New-York record
whose catalog Location Type is `In Person`. -/
def c9Catalog : List ApiLocation :=
  [{ address_1 := some "1 Liberty St"
     address_2 := none
     city := some "New York"
     state := some "NY"
     zip := some "10005"
     monolith_location_id := some "m1"
     location_id := some "L1"
     locationType := some "In Person"
     practiceMonolithId := none
     practiceCloudId := none }]

/-- Expected Case-2 output of the C9 witness row. -/
def c9Expected : Case2RowResult :=
  { monolithSlots := [(1, "m1")]
    cloudSlots := [(1, "L1")]
    typeSlots := [(1, "")]
    practiceMonolithSlots := [(1, "")]
    practiceCloudSlots := [(1, "")]
    mainLocationType := "" }

end LocationsInput

namespace LocationsInput

/-- C2: the numeric-token invariant of the similarity scorer.  If both
argument strings contain digit runs and the two run sequences differ, the
scorer rejects at every threshold. -/
theorem c2_numeric_invariant (a b : String) (t : ℚ)
    (ha : extract_numbers a ≠ []) (hb : extract_numbers b ≠ [])
    (hne : extract_numbers a ≠ extract_numbers b) :
    fuzzy_match_score a b t = false := by
  simp only [fuzzy_match_score]
  split
  · rfl
  · split
    · rfl
    · next h => exact absurd ⟨ha, hb, hne⟩ h

/-- Witness for `c2_numeric_invariant` at `a = "12 Main"`, `b = "13 Main"`. -/
theorem c2_witness :
    extract_numbers "12 Main" ≠ [] ∧ extract_numbers "13 Main" ≠ [] ∧
      extract_numbers "12 Main" ≠ extract_numbers "13 Main" ∧
      fuzzy_match_score "12 Main" "13 Main" 0 = false :=
  ⟨by decide, by decide, by decide,
    c2_numeric_invariant "12 Main" "13 Main" 0 (by decide) (by decide)
      (by decide)⟩

set_option maxHeartbeats 1000000 in
/-- C10: threshold monotonicity of the similarity scorer.  Every branch of
`fuzzy_match_score` other than the final ratio comparison is
threshold-independent, and the final branch compares one fixed ratio against
the threshold. -/
theorem c10_threshold_monotone (a b : String) (t t' : ℚ) (hle : t' ≤ t)
    (h : fuzzy_match_score a b t = true) :
    fuzzy_match_score a b t' = true := by
  unfold fuzzy_match_score at h ⊢
  dsimp only at h ⊢
  split_ifs at h ⊢ <;>
    first
      | exact h
      | (rw [decide_eq_true_eq] at h ⊢; exact le_trans hle h)

/-- Helper: a Python loop appending the elements that pass a test is the
filter of the list. -/
theorem foldl_append_filter {α : Type} (p : α → Bool) (xs acc : List α) :
    xs.foldl (fun acc x => if p x then acc ++ [x] else acc) acc =
      acc ++ xs.filter p := by
  induction xs generalizing acc with
  | nil => simp
  | cons x xs ih =>
    simp only [List.foldl_cons, List.filter_cons]
    cases h : p x <;> simp [h, ih]

/-- Helper: a Python loop appending the images of the elements on which a
lookup succeeds is the filterMap of the list. -/
theorem foldl_append_filterMap {α β : Type} (f : α → Option β) (xs : List α)
    (acc : List β) :
    xs.foldl (fun acc x => appendOpt acc (f x)) acc =
      acc ++ xs.filterMap f := by
  induction xs generalizing acc with
  | nil => simp
  | cons x xs ih =>
    simp only [List.foldl_cons, List.filterMap_cons]
    cases h : f x <;> rw [ih] <;> simp [appendOpt]

/-- Helper: the translated Address Line 2 loop body decides exactly the
spec predicate `line2KeepSpec`. -/
theorem line2Stage_eq_filter (a2 : String) (ms : List ApiLocation) :
    line2Stage a2 ms = ms.filter (line2KeepSpec a2) := by
  unfold line2Stage
  have hbody :
      (fun (acc : List ApiLocation) (r : ApiLocation) =>
          let api_addr2_norm := normOpt r.address_2
          if a2 = "" then
            if api_addr2_norm = "" then acc ++ [r] else acc
          else
            if api_addr2_norm ≠ "" then
              if fuzzy_match_score a2 api_addr2_norm (7/10) then acc ++ [r]
              else acc
            else acc) =
        fun acc r => if line2KeepSpec a2 r then acc ++ [r] else acc := by
    funext acc r
    unfold line2KeepSpec
    by_cases h2 : a2 = "" <;>
      by_cases hc : normOpt r.address_2 = "" <;>
        cases hf : fuzzy_match_score a2 (normOpt r.address_2) (7/10) <;>
          simp [h2, hc, hf]
  rw [hbody, foldl_append_filter]
  simp

/-- Helper: the translated City stage is the conditional narrowing of the
spec. -/
theorem cityStage_eq_condNarrow (c : String) (ms : List ApiLocation)
    (hc : c ≠ "") :
    cityStage c ms =
      condNarrowSpec (fun r => fuzzy_match_score c (normOpt r.city) (8/10))
        ms := by
  unfold cityStage condNarrowSpec
  rw [if_neg hc, foldl_append_filter]
  simp

/-- Helper: the translated State stage is the conditional narrowing of the
spec. -/
theorem stateStage_eq_condNarrow (s : String) (ms : List ApiLocation)
    (hs : s ≠ "") :
    stateStage s ms =
      condNarrowSpec (fun r => fuzzy_match_score s (normOpt r.state) (8/10))
        ms := by
  unfold stateStage condNarrowSpec
  rw [if_neg hs, foldl_append_filter]
  simp

/-- Helper: the translated ZIP stage is the conditional narrowing of the
spec. -/
theorem zipStage_eq_condNarrow (z : String) (ms : List ApiLocation)
    (hz : z ≠ "") :
    zipStage z ms =
      condNarrowSpec (fun r => fuzzy_match_score z (normOpt r.zip) (8/10))
        ms := by
  unfold zipStage condNarrowSpec
  rw [if_neg hz, foldl_append_filter]
  simp

/-- Helper: the City stage never empties a non-empty candidate set. -/
theorem cityStage_ne_nil (c : String) (ms : List ApiLocation)
    (h : ms ≠ []) : cityStage c ms ≠ [] := by
  unfold cityStage
  split
  · exact h
  · dsimp only
    split
    · exact h
    · next hne => exact hne

/-- Helper: the State stage never empties a non-empty candidate set. -/
theorem stateStage_ne_nil (s : String) (ms : List ApiLocation)
    (h : ms ≠ []) : stateStage s ms ≠ [] := by
  unfold stateStage
  split
  · exact h
  · dsimp only
    split
    · exact h
    · next hne => exact hne

/-- Helper: the ZIP stage never empties a non-empty candidate set. -/
theorem zipStage_ne_nil (z : String) (ms : List ApiLocation)
    (h : ms ≠ []) : zipStage z ms ≠ [] := by
  unfold zipStage
  split
  · exact h
  · dsimp only
    split
    · exact h
    · next hne => exact hne

/-- Witness for `c10_threshold_monotone`: a pair accepted at 0.9 is also
accepted at 0.7. -/
theorem c10_witness :
    (7 : ℚ)/10 ≤ 9/10 ∧ fuzzy_match_score "Main St" "Main  st" (9/10) = true ∧
      fuzzy_match_score "Main St" "Main  st" (7/10) = true := by
  refine ⟨by norm_num, by decide, ?_⟩
  exact c10_threshold_monotone "Main St" "Main  st" (9/10) (7/10) (by norm_num)
    (by decide)

/-- C1 counterexample: on the scenario-A inputs the Case-4 matcher returns
the empty list, not one match with external id `loc_1`. -/
theorem c1_counterexample :
    match_location_by_address c1Row c1Catalog (some "555") none = [] ∧
      (match_location_by_address c1Row c1Catalog (some "555") none).map
          MatchTuple.externalLocationId ≠ ["loc_1"] := by
  constructor
  · decide
  · decide

/-- C1 amended: on the scenario-A inputs the Case-4 matcher returns zero
matches, because the digit-run sequence of the input line (165, 23) differs
from the digit-run sequence of the synthesized candidate address
(165, 23, 10006), so `isSimilar` at threshold 0.7 rejects under the numeric
invariant. -/
theorem c1_amended :
    extract_numbers (normOpt c1Row.addressLine1) = ["165", "23"] ∧
      extract_numbers (normalize_string (combinedAddress c1CatalogRecord)) =
        ["165", "23", "10006"] ∧
      fuzzy_match_score (normOpt c1Row.addressLine1)
          (normalize_string (combinedAddress c1CatalogRecord)) (7/10) =
        false ∧
      match_location_by_address c1Row c1Catalog (some "555") none = [] := by
  refine ⟨by decide, by decide, by decide, by decide⟩

/-- C3: the Address Line 2 stage replaces the line-1 survivors by exactly
the candidates agreeing with the row on line-2 presence (an unconditional
filter, even when it empties the set), and scenario B yields zero matches
although line1, city, state and zip all match. -/
theorem c3_line2_presence_exactness :
    (∀ a2 ms, line2Stage a2 ms = ms.filter (line2KeepSpec a2)) ∧
      match_location_by_address c3Row c3Catalog none none = [] := by
  constructor
  · exact line2Stage_eq_filter
  · decide

/-- C4: each of the City, State, ZIP stages (threshold 0.8, in that order)
replaces the candidate set only when the filtered set is non-empty, and the
stages after the line-2 stage never reduce a non-empty candidate set to
empty. -/
theorem c4_conditional_narrowing :
    (∀ c ms, c ≠ "" →
        cityStage c ms =
          condNarrowSpec
            (fun r => fuzzy_match_score c (normOpt r.city) (8/10)) ms) ∧
      (∀ s ms, s ≠ "" →
        stateStage s ms =
          condNarrowSpec
            (fun r => fuzzy_match_score s (normOpt r.state) (8/10)) ms) ∧
      (∀ z ms, z ≠ "" →
        zipStage z ms =
          condNarrowSpec
            (fun r => fuzzy_match_score z (normOpt r.zip) (8/10)) ms) ∧
      (∀ ci st zi (ms : List ApiLocation), ms ≠ [] →
        zipStage zi (stateStage st (cityStage ci ms)) ≠ []) :=
  ⟨cityStage_eq_condNarrow, stateStage_eq_condNarrow, zipStage_eq_condNarrow,
    fun ci st zi ms h =>
      zipStage_ne_nil zi _ (stateStage_ne_nil st _ (cityStage_ne_nil ci ms h))⟩

/-- Witness for `c4_conditional_narrowing` on a concrete candidate list. -/
theorem c4_witness :
    ("parsippany" : String) ≠ "" ∧ c4DemoRows ≠ [] ∧
      cityStage "parsippany" c4DemoRows =
        condNarrowSpec
          (fun r => fuzzy_match_score "parsippany" (normOpt r.city) (8/10))
          c4DemoRows ∧
      zipStage "07054" (stateStage "nj" (cityStage "parsippany" c4DemoRows)) ≠
        [] :=
  ⟨by decide, by decide,
    c4_conditional_narrowing.1 "parsippany" c4DemoRows (by decide),
    c4_conditional_narrowing.2.2.2 "parsippany" "nj" "07054" c4DemoRows
      (by decide)⟩

/-- C5 counterexample: a Case-2 row whose state list names NY twice produces
two match entries with the same external id, so duplicates by external id
are not removed. -/
theorem c5_counterexample :
    (case2MatchesForRow (some "NY, NY") c5Catalog).map
        MatchInfo.location_id = ["L9", "L9"] ∧
      ¬ ((case2MatchesForRow (some "NY, NY") c5Catalog).map
          MatchInfo.location_id).Nodup := by
  constructor
  · decide
  · decide

/-- C5 amended: the match lists preserve discovery order — the Case-3/4
extraction emits the surviving candidates in order, and Case 2 emits one
entry per state of the comma-separated list in list order — but duplicates
with the same external id are retained, not removed. -/
theorem c5_amended :
    (∀ ms, extractStage ms = ms.filterMap tupleOf) ∧
      (∀ sv api, case2MatchesForRow (some sv) api =
        if pyStrip sv = "" then []
        else (stateList (pyStrip sv)).filterMap (firstStateMatch api)) ∧
      (case2MatchesForRow (some "NY, NY") c5Catalog).map
          MatchInfo.location_id = ["L9", "L9"] := by
  refine ⟨?_, ?_, by decide⟩
  · intro ms
    unfold extractStage
    rw [foldl_append_filterMap]
    simp
  · intro sv api
    unfold case2MatchesForRow
    dsimp only
    split
    · rfl
    · rw [foldl_append_filterMap]
      simp

/-- C6 counterexample: a zero-row dataset with only a `Location ID` column
selects the Case-3 branch, not Case 1, because the materiality test
requires `total_count > 0`. -/
theorem c6_counterexample :
    selectCase c6ZeroRowData = some MatchCase.case3 ∧
      selectCase c6ZeroRowData ≠ some MatchCase.case1 := by
  constructor
  · decide
  · decide

/-- C6 amended: whenever the dataset has a `Location ID` column and at least
one row, and some `Location ID` column has more than 20 percent non-empty
cells, the selector chooses Case 1 and no fuzzy case runs; the zero-row
dataset instead falls through to the fuzzy branch. -/
theorem c6_amended (d : SelectorInput) (hcols : d.locIdCols ≠ [])
    (h : ∃ col ∈ d.locIdCols, 0 < d.nRows ∧ d.nRows < 5 * nonEmptyCount col) :
    selectCase d = some MatchCase.case1 := by
  have hf : needsFuzzyMatching d = false := by
    unfold needsFuzzyMatching
    obtain ⟨col, hmem, h1, h2⟩ := h
    simp only [Bool.not_eq_false', List.any_eq_true]
    exact ⟨col, hmem, by simp [h1, h2]⟩
  unfold selectCase
  rw [if_neg hcols]
  simp [hf]

/-- Witness for `c6_amended` on a one-row dataset with a fully populated
`Location ID` column. -/
theorem c6_witness :
    c6WitnessData.locIdCols ≠ [] ∧
      (∃ col ∈ c6WitnessData.locIdCols,
        0 < c6WitnessData.nRows ∧
          c6WitnessData.nRows < 5 * nonEmptyCount col) ∧
      selectCase c6WitnessData = some MatchCase.case1 :=
  ⟨by decide, by decide, c6_amended c6WitnessData (by decide) (by decide)⟩

/-- C9: every numbered Location Type cell Case 2 writes for a matched row is
the empty value, and the main Location Type cell is cleared, regardless of
the locationType carried by the matched catalog records. -/
theorem c9_case2_blank_locationType (sv : Option String)
    (api : List ApiLocation) (res : Case2RowResult)
    (h : case2ProcessRow sv api = some res) :
    (∀ p ∈ res.typeSlots, p.2 = "") ∧ res.mainLocationType = "" := by
  unfold case2ProcessRow at h
  dsimp only at h
  split at h
  · exact absurd h (by simp)
  · rw [Option.some_inj] at h
    subst h
    constructor
    · intro p hp
      simp only [List.mem_map] at hp
      obtain ⟨q, _, rfl⟩ := hp
      rfl
    · rfl

/-- Witness for `c9_case2_blank_locationType`: a catalog record typed
`In Person` still yields an empty Location Type slot. -/
theorem c9_witness :
    case2ProcessRow (some "NY") c9Catalog = some c9Expected ∧
      ((∀ p ∈ c9Expected.typeSlots, p.2 = "") ∧
        c9Expected.mainLocationType = "") :=
  ⟨by decide,
    c9_case2_blank_locationType (some "NY") c9Catalog c9Expected (by decide)⟩

/-- Helper: the Case-3/4 slot loop enumerates `1, ..., n`. -/
theorem case3AssignedSlots_eq (n : Nat) :
    case3AssignedSlots n = List.range' 1 n := by
  unfold case3AssignedSlots
  induction n with
  | zero => simp
  | succ n ih =>
    rw [List.range_succ, List.foldl_append, ih, List.range'_concat]
    simp [Nat.add_comm]

/-- Helper: the slot-maximum fold never goes below its accumulator. -/
theorem maxPopulated_foldl_ge (cells : List (Nat × Option String)) (a : Nat) :
    a ≤ cells.foldl
      (fun m p => if cellNonEmpty p.2 then max m p.1 else m) a := by
  induction cells generalizing a with
  | nil => simp
  | cons c cs ih =>
    simp only [List.foldl_cons]
    refine le_trans ?_ (ih _)
    split
    · exact le_max_left _ _
    · exact le_rfl

/-- Helper: every populated slot number is bounded by the slot-maximum fold
from any start. -/
theorem maxPopulated_ge_aux (cells : List (Nat × Option String)) :
    ∀ (a : Nat) (p : Nat × Option String), p ∈ cells →
      cellNonEmpty p.2 = true →
      p.1 ≤ cells.foldl
        (fun m p => if cellNonEmpty p.2 then max m p.1 else m) a := by
  induction cells with
  | nil =>
    intro a p hp _
    cases hp
  | cons c cs ih =>
    intro a p hp hne
    rcases List.mem_cons.mp hp with h | h
    · subst h
      simp only [List.foldl_cons, if_pos hne]
      exact le_trans (le_max_right _ _) (maxPopulated_foldl_ge cs _)
    · simp only [List.foldl_cons]
      exact ih _ p h hne

/-- Helper: every populated slot number is bounded by `maxPopulated`. -/
theorem maxPopulated_ge (cells : List (Nat × Option String))
    (p : Nat × Option String) (hp : p ∈ cells)
    (hne : cellNonEmpty p.2 = true) : p.1 ≤ maxPopulated cells :=
  maxPopulated_ge_aux cells 0 p hp hne

/-- Helper: `setCell` keeps every entry whose key differs from the written
one. -/
theorem mem_setCell_of_ne (cells : List (Nat × Option String)) (n : Nat)
    (v : String) (p : Nat × Option String) (hp : p ∈ cells)
    (hne : p.1 ≠ n) : p ∈ setCell cells n v := by
  unfold setCell
  split
  · exact List.mem_map.mpr ⟨p, hp, by rw [if_neg hne]⟩
  · exact List.mem_append_left _ hp

/-- Helper: the written cell is always an entry of `setCell`. -/
theorem self_mem_setCell (cells : List (Nat × Option String)) (n : Nat)
    (v : String) : (n, some v) ∈ setCell cells n v := by
  unfold setCell
  split
  · next hk =>
    unfold hasKey at hk
    rw [List.any_eq_true] at hk
    obtain ⟨p, hp, hpn⟩ := hk
    rw [decide_eq_true_eq] at hpn
    exact List.mem_map.mpr ⟨p, hp, by rw [if_pos hpn]⟩
  · exact List.mem_append_right _ (by simp)

/-- Helper: `ensureKey` keeps every positive `any` of the cell list. -/
theorem any_ensureKey (cells : List (Nat × Option String)) (n : Nat)
    (p : Nat × Option String → Bool) (h : cells.any p = true) :
    (ensureKey cells n).any p = true := by
  unfold ensureKey
  split
  · exact h
  · simp only [List.any_append, h, Bool.true_or]

/-- Helper: a sentinel delivered by the guard cascade is a catalog record. -/
theorem stepSentinel_mem (api : List ApiLocation) (ltc stc : Option String)
    (v : ApiLocation) (h : stepSentinel api ltc stc = some v) : v ∈ api := by
  unfold stepSentinel at h
  cases ltc with
  | none => cases h
  | some lt =>
    dsimp only at h
    by_cases h1 : pyStrip lt = "Both" ∨ pyStrip lt = "Virtual"
    · rw [if_pos h1] at h
      cases stc with
      | none => cases h
      | some st =>
        dsimp only at h
        by_cases h2 : pyStrip st = ""
        · rw [if_pos h2] at h
          cases h
        · rw [if_neg h2] at h
          by_cases h3 : normalize_string (pyStrip st) = ""
          · rw [if_pos h3] at h
            cases h
          · rw [if_neg h3] at h
            unfold findVirtualLocation at h
            have hv := List.mem_of_mem_head? (Option.mem_def.mpr h)
            exact List.mem_of_mem_filter (List.mem_of_mem_filter hv)
    · rw [if_neg h1] at h
      cases h

/-- Helper: a skipped row stays skipped after other rows create columns
(`ensureRow` only adds empty-string cells, which can only make the
duplicate check fire, never un-fire). -/
theorem backfillStep_ensureRow_none (api : List ApiLocation) (r : VRow)
    (n : Nat) (h : backfillStep api r = none) :
    backfillStep api (ensureRow n r) = none := by
  unfold backfillStep at h ⊢
  have hlt : (ensureRow n r).locationType = r.locationType := rfl
  have hst : (ensureRow n r).state = r.state := rfl
  rw [hlt, hst]
  cases hs : stepSentinel api r.locationType r.state with
  | none => rfl
  | some v =>
    rw [hs] at h
    dsimp only at h ⊢
    cases hv : v.location_id with
    | none => rfl
    | some vid =>
      rw [hv] at h
      dsimp only at h ⊢
      split at h
      · next hex =>
        have hex' :
            (ensureRow n r).cloudCells.any (fun p =>
              match p.2 with
              | none => false
              | some s => cleanupId s = cleanupId vid) = true := by
          have hcc : (ensureRow n r).cloudCells = ensureKey r.cloudCells n :=
            rfl
          rw [hcc]
          exact any_ensureKey _ _ _ hex
        rw [if_pos hex']
      · exact absurd h (by simp)

/-- Helper: under cleanup-stable catalog ids, the row just extended by the
Backfiller is skipped when visited again. -/
theorem backfillStep_append_none (api : List ApiLocation)
    (hgood : ∀ x ∈ api, idCleanupStable x = true) (r r' : VRow) (n : Nat)
    (h : backfillStep api r = some (r', n)) : backfillStep api r' = none := by
  unfold backfillStep at h
  cases hs : stepSentinel api r.locationType r.state with
  | none =>
    rw [hs] at h
    cases h
  | some v =>
    rw [hs] at h
    dsimp only at h
    cases hv : v.location_id with
    | none =>
      rw [hv] at h
      cases h
    | some vid =>
      rw [hv] at h
      dsimp only at h
      split at h
      · cases h
      · rw [Option.some_inj, Prod.mk.injEq] at h
        obtain ⟨hr', _⟩ := h
        have hstable : cleanupId (cleanupId vid) = cleanupId vid := by
          have hgv := hgood v (stepSentinel_mem api r.locationType r.state v hs)
          unfold idCleanupStable at hgv
          rw [hv] at hgv
          exact of_decide_eq_true hgv
        rw [← hr']
        unfold backfillStep
        dsimp only
        rw [hs]
        dsimp only
        rw [hv]
        dsimp only
        have hex :
            (setCell r.cloudCells (maxPopulated r.cloudCells + 1)
                (cleanupId vid)).any (fun p =>
              match p.2 with
              | none => false
              | some s => cleanupId s = cleanupId vid) = true := by
          rw [List.any_eq_true]
          refine ⟨(maxPopulated r.cloudCells + 1, some (cleanupId vid)),
            self_mem_setCell _ _ _, ?_⟩
          simpa using hstable
        rw [if_pos hex]

/-- Helper: when every remaining row is skipped, the Backfiller loop only
moves the rows across unchanged. -/
theorem backfillRowsFuel_stable (api : List ApiLocation) :
    ∀ (fuel : Nat) (rows done : List VRow), rows.length ≤ fuel →
      (∀ r ∈ rows, backfillStep api r = none) →
      backfillRowsFuel api fuel done rows = done ++ rows := by
  intro fuel
  induction fuel with
  | zero =>
    intro rows done hlen _
    rw [Nat.le_zero, List.length_eq_zero] at hlen
    subst hlen
    simp [backfillRowsFuel]
  | succ fuel ih =>
    intro rows done hlen hstable
    cases rows with
    | nil => simp [backfillRowsFuel]
    | cons r rest =>
      have hr := hstable r (List.mem_cons_self r rest)
      simp only [backfillRowsFuel, hr]
      rw [ih rest (done ++ [r])
        (Nat.le_of_succ_le_succ (by simpa using hlen))
        (fun x hx => hstable x (List.mem_cons_of_mem r hx))]
      simp

/-- Helper: every row the Backfiller loop outputs is skipped by a further
step, provided the already-done rows are and the catalog ids are
cleanup-stable. -/
theorem backfillRowsFuel_all_stable (api : List ApiLocation)
    (hgood : ∀ x ∈ api, idCleanupStable x = true) :
    ∀ (fuel : Nat) (rows done : List VRow),
      (∀ r ∈ done, backfillStep api r = none) →
      ∀ x ∈ backfillRowsFuel api fuel done rows,
        backfillStep api x = none := by
  intro fuel
  induction fuel with
  | zero =>
    intro rows done hdone x hx
    exact hdone x hx
  | succ fuel ih =>
    intro rows done hdone x hx
    cases rows with
    | nil => exact hdone x hx
    | cons r rest =>
      simp only [backfillRowsFuel] at hx
      cases hstep : backfillStep api r with
      | none =>
        rw [hstep] at hx
        refine ih rest (done ++ [r]) ?_ x hx
        intro y hy
        rcases List.mem_append.mp hy with hy | hy
        · exact hdone y hy
        · rw [List.mem_singleton] at hy
          subst hy
          exact hstep
      | some rn =>
        obtain ⟨r', n⟩ := rn
        rw [hstep] at hx
        refine ih (rest.map (ensureRow n)) (done.map (ensureRow n) ++ [r']) ?_ x hx
        intro y hy
        rcases List.mem_append.mp hy with hy | hy
        · obtain ⟨z, hz, rfl⟩ := List.mem_map.mp hy
          exact backfillStep_ensureRow_none api z n (hdone z hz)
        · rw [List.mem_singleton] at hy
          rw [hy]
          exact backfillStep_append_none api hgood r r' n hstep

/-- C7 counterexample: a Case-1 row whose `Location ID` sub-columns are
populated only at slots 1 and 3 gets cloud-id values only at slots 1 and 3,
which is not a contiguous run starting at 1. -/
theorem c7_counterexample :
    populatedSlotNums
        (case1CloudSlots (buildLocationIdMap c7Catalog) c7LocCells) =
      [1, 3] ∧
      ¬ contiguousFrom1
        (populatedSlotNums
          (case1CloudSlots (buildLocationIdMap c7Catalog) c7LocCells)) := by
  constructor
  · decide
  · decide

/-- C7 amended: the Case-3/4 expander assigns the contiguous slots
`1, ..., k`, and the Backfiller appends its virtual match at slot
`max populated + 1`, touching no existing populated slot — but Case-1 rows
with partially populated `Location ID` sub-columns inherit the gaps of the
input, so slot contiguity does not hold for them. -/
theorem c7_amended :
    (∀ n, case3AssignedSlots n = List.range' 1 n) ∧
      ∀ (api : List ApiLocation) (r r' : VRow) (n : Nat),
        backfillStep api r = some (r', n) →
        n = maxPopulated r.cloudCells + 1 ∧
          ∀ p ∈ r.cloudCells, cellNonEmpty p.2 = true →
            p.1 ≠ n ∧ p ∈ r'.cloudCells := by
  constructor
  · exact case3AssignedSlots_eq
  · intro api r r' n h
    unfold backfillStep at h
    cases hs : stepSentinel api r.locationType r.state with
    | none => rw [hs] at h; cases h
    | some v =>
      rw [hs] at h
      dsimp only at h
      cases hv : v.location_id with
      | none => rw [hv] at h; cases h
      | some vid =>
        rw [hv] at h
        dsimp only at h
        split at h
        · cases h
        · rw [Option.some_inj, Prod.mk.injEq] at h
          obtain ⟨hr', hn⟩ := h
          subst hn
          refine ⟨rfl, ?_⟩
          intro p hp hpne
          have hle : p.1 ≤ maxPopulated r.cloudCells :=
            maxPopulated_ge r.cloudCells p hp hpne
          have hne : p.1 ≠ maxPopulated r.cloudCells + 1 :=
            Nat.ne_of_lt (Nat.lt_succ_of_le hle)
          refine ⟨hne, ?_⟩
          subst hr'
          exact mem_setCell_of_ne r.cloudCells _ _ p hp hne

/-- Witness for the Backfiller part of `c7_amended` on a concrete row with
one populated slot. -/
theorem c7_witness :
    backfillStep c7WitnessCatalog c7WitnessRow = some (c7ExpectedRow, 2) ∧
      (2 = maxPopulated c7WitnessRow.cloudCells + 1 ∧
        ∀ p ∈ c7WitnessRow.cloudCells, cellNonEmpty p.2 = true →
          p.1 ≠ 2 ∧ p ∈ c7ExpectedRow.cloudCells) :=
  ⟨by decide,
    c7_amended.2 c7WitnessCatalog c7WitnessRow c7ExpectedRow 2 (by decide)⟩

/-- C8 counterexample: a sentinel whose external id is `v.0.0` is stored as
`v.0`, but the duplicate check re-cleans the stored cell to `v`, so the
second Backfiller run appends the sentinel again and changes the sheet. -/
theorem c8_counterexample :
    add_virtual_locations_after_matching c8Catalog
        (add_virtual_locations_after_matching c8Catalog c8Sheet) ≠
      add_virtual_locations_after_matching c8Catalog c8Sheet := by
  decide

/-- C8 amended: the Backfiller is idempotent on every committed state
whenever the external id of every catalog record is cleanup-stable (one
strip-and-drop-`.0` pass is a fixpoint on it); ids such as `v.0.0`, whose
cleaned form still ends in `.0`, defeat the duplicate check and break
idempotence. -/
theorem c8_amended (api : List ApiLocation) (rows : List VRow)
    (hgood : ∀ x ∈ api, idCleanupStable x = true) :
    add_virtual_locations_after_matching api
        (add_virtual_locations_after_matching api rows) =
      add_virtual_locations_after_matching api rows := by
  unfold add_virtual_locations_after_matching
  by_cases hg : rows.any (fun r => !r.cloudCells.isEmpty) = true
  · rw [if_pos hg]
    have hstable :
        ∀ x ∈ backfillRowsFuel api rows.length [] rows,
          backfillStep api x = none :=
      backfillRowsFuel_all_stable api hgood rows.length rows []
        (fun y hy => absurd hy (List.not_mem_nil y))
    by_cases hg2 :
        (backfillRowsFuel api rows.length [] rows).any
          (fun r => !r.cloudCells.isEmpty) = true
    · rw [if_pos hg2]
      rw [backfillRowsFuel_stable api _ _ [] le_rfl hstable]
      simp
    · rw [if_neg hg2]
  · rw [if_neg hg, if_neg hg]

/-- Witness for `c8_amended` on a concrete sheet and a cleanup-stable
catalog. -/
theorem c8_witness :
    (∀ x ∈ c8WitnessCatalog, idCleanupStable x = true) ∧
      add_virtual_locations_after_matching c8WitnessCatalog
          (add_virtual_locations_after_matching c8WitnessCatalog c8Sheet) =
        add_virtual_locations_after_matching c8WitnessCatalog c8Sheet :=
  ⟨by decide, c8_amended c8WitnessCatalog c8Sheet (by decide)⟩

end LocationsInput
